import Mathlib

/-!
# Verification of the client-side session/authorization flow

Shallow embedding of the authentication feature of a small Angular
single-page application: the persistent session store (`storage.util.ts`),
the auth orchestrator (`auth.service.ts`), the HTTP request decorator
(`auth.interceptor.ts`), the route guard (`auth.guard.ts`) and the login
view component (`login.component.ts`, of which the repository contains a
validated variant and a minimal unvalidated variant).

Browser `localStorage` is modelled as a record with one optional cell per
key the code uses (`auth_token`, `user_data`) plus a `disabled` flag; an
operation on disabled storage raises, modelled with `Except`.  JavaScript
exceptions propagate as `Except.error`.  `JSON.stringify`/`JSON.parse` on
the user record are modelled by a concrete serializer and a parser that
accepts exactly the canonical serialized form (real `JSON.parse` accepts
more inputs, but every record the code itself writes is canonical, and the
parser fails — raises — on non-JSON content just as `JSON.parse` does).
-/

set_option autoImplicit false

deriving instance DecidableEq for Except

namespace ProductFrontend

/-- A JavaScript exception crossing a function boundary: either the
underlying browser storage is disabled and raised on access, or
`JSON.parse` raised a syntax error on unusable content. -/
inductive JsError where
  | storageDisabled
  | invalidJson
  deriving Repr, DecidableEq

/-- Model of browser `localStorage` as used by `storage.util.ts`: the two
keys the code touches (`auth_token`, `user_data`) as optional string
cells, plus a flag for the storage being disabled (in which case every
access raises). -/
structure LocalStorage where
  disabled : Bool
  auth_token : Option String
  user_data : Option String
  deriving Repr, DecidableEq

/-- `localStorage.getItem(key)`: `null` (here `none`) when the key is
absent; raises when storage is disabled. -/
def localStorageGetItem (s : LocalStorage) (key : String) :
    Except JsError (Option String) :=
  if s.disabled then .error .storageDisabled
  else if key = "auth_token" then .ok s.auth_token
  else if key = "user_data" then .ok s.user_data
  else .ok none

/-- `localStorage.setItem(key, value)`: returns the updated storage;
raises when storage is disabled. -/
def localStorageSetItem (s : LocalStorage) (key value : String) :
    Except JsError LocalStorage :=
  if s.disabled then .error .storageDisabled
  else if key = "auth_token" then .ok { s with auth_token := some value }
  else if key = "user_data" then .ok { s with user_data := some value }
  else .ok s

/-- `localStorage.removeItem(key)`: returns the updated storage; raises
when storage is disabled. -/
def localStorageRemoveItem (s : LocalStorage) (key : String) :
    Except JsError LocalStorage :=
  if s.disabled then .error .storageDisabled
  else if key = "auth_token" then .ok { s with auth_token := none }
  else if key = "user_data" then .ok { s with user_data := none }
  else .ok s

/-- JavaScript truthiness of a `string | null` value: `null` and the
empty string are falsy, every other string is truthy (`!!x`). -/
def jsTruthy : Option String → Bool
  | none => false
  | some t => t != ""

/-! ## Model of `JSON.stringify` / `JSON.parse` for the user record -/

/-- The user record persisted under `user_data`:
`\x7b username, nome \x7d` (identifier and display name). -/
structure UserRecord where
  username : String
  nome : String
  deriving Repr, DecidableEq

/-- JSON string-content escaping: a quote or backslash is preceded by a
backslash, every other character is kept. -/
def jsonEscapeChars : List Char → List Char
  | [] => []
  | c :: cs =>
    if c = '"' ∨ c = '\\' then '\\' :: c :: jsonEscapeChars cs
    else c :: jsonEscapeChars cs

/-- The characters `\x7b"username":"` opening the canonical serialized
user record (up to and including the opening quote of the first string
literal). -/
def userOpenChars : List Char := ("\x7b\"username\":\"").data

/-- The characters `,"nome":"` between the two string literals of the
canonical serialized user record. -/
def userMidChars : List Char := (",\"nome\":\"").data

/-- The characters closing the canonical serialized user record: the
closing brace `\x7d`. -/
def userCloseChars : List Char := ("\x7d").data

/-- `JSON.stringify(\x7b username, nome \x7d)`: the canonical JSON text
`\x7b"username":"<u>","nome":"<n>"\x7d` with string contents escaped. -/
def stringifyUser (username nome : String) : String :=
  String.mk (userOpenChars ++ jsonEscapeChars username.data ++ ['"'] ++
    userMidChars ++ jsonEscapeChars nome.data ++ ['"'] ++ userCloseChars)

/-- Parse a JSON string literal body (after the opening quote), undoing
`jsonEscapeChars`, returning the content and the remaining input; fails
on input that is not a well-formed literal. -/
def parseJsonString : List Char → Option (List Char × List Char)
  | [] => none
  | c :: cs =>
    if c = '"' then some ([], cs)
    else if c = '\\' then
      match cs with
      | [] => none
      | d :: ds =>
        if d = '"' ∨ d = '\\' then
          match parseJsonString ds with
          | none => none
          | some (content, rest) => some (d :: content, rest)
        else none
    else
      match parseJsonString cs with
      | none => none
      | some (content, rest) => some (c :: content, rest)

/-- Consume an expected literal run of characters, failing on mismatch. -/
def dropLit : List Char → List Char → Option (List Char)
  | [], s => some s
  | _ :: _, [] => none
  | c :: cs, d :: ds => if c = d then dropLit cs ds else none

/-- Model of `JSON.parse` applied to the `user_data` cell: succeeds
exactly on the canonical serialized form produced by `stringifyUser`. -/
def parseUser (s : String) : Option UserRecord :=
  match dropLit userOpenChars s.data with
  | none => none
  | some s1 =>
    match parseJsonString s1 with
    | none => none
    | some (u, s2) =>
      match dropLit userMidChars s2 with
      | none => none
      | some s3 =>
        match parseJsonString s3 with
        | none => none
        | some (n, s4) =>
          if s4 = userCloseChars then some ⟨String.mk u, String.mk n⟩
          else none

/-! ## Storage utilities (`storage.util.ts`) -/

/-- `saveToken(token)`: `localStorage.setItem('auth_token', token)`. -/
def saveToken (s : LocalStorage) (token : String) : Except JsError LocalStorage :=
  localStorageSetItem s "auth_token" token

/-- `getToken()`: `localStorage.getItem('auth_token')`. -/
def getToken (s : LocalStorage) : Except JsError (Option String) :=
  localStorageGetItem s "auth_token"

/-- `removeToken()`: `localStorage.removeItem('auth_token')`. -/
def removeToken (s : LocalStorage) : Except JsError LocalStorage :=
  localStorageRemoveItem s "auth_token"

/-- `isAuthenticated()` (storage util): `!!getToken()`. -/
def isAuthenticatedUtil (s : LocalStorage) : Except JsError Bool :=
  (getToken s).map jsTruthy

/-- `saveUser(username, nome)`:
`localStorage.setItem('user_data', JSON.stringify(\x7b username, nome \x7d))`. -/
def saveUser (s : LocalStorage) (username nome : String) :
    Except JsError LocalStorage :=
  localStorageSetItem s "user_data" (stringifyUser username nome)

/-- `getUser()`: reads `user_data`; returns `null` when the cell is
absent or falsy (empty string); otherwise `JSON.parse`s it, raising on
unusable content (the code has no try/catch). -/
def getUser (s : LocalStorage) : Except JsError (Option UserRecord) :=
  match localStorageGetItem s "user_data" with
  | .error e => .error e
  | .ok none => .ok none
  | .ok (some data) =>
    if data = "" then .ok none
    else
      match parseUser data with
      | some u => .ok (some u)
      | none => .error .invalidJson

/-- `removeUser()`: `localStorage.removeItem('user_data')`. -/
def removeUser (s : LocalStorage) : Except JsError LocalStorage :=
  localStorageRemoveItem s "user_data"

/-! ## Data model (`auth.model.ts`) and gateway outcome -/

/-- `LoginResponse`: the body returned by `POST <base>/auth/login` on
success: `\x7b username, nome, token \x7d`. -/
structure LoginResponse where
  username : String
  nome : String
  token : String
  deriving Repr, DecidableEq

/-- The error object delivered to an rxjs error callback on a failed
HTTP call (network failure or non-2xx): the login component only reads
its `message` field, so that is all we model (an empty `message` is
falsy in `error.message || ...`). -/
structure HttpError where
  message : String
  deriving Repr, DecidableEq

/-- The outcome of one run of the gateway call
`AuthRepository.login(credentials)` (`auth.repository.ts` performs a
single `http.post` and no transformation or error handling, so the raw
transport outcome is exactly what the orchestrator observes). -/
def GatewayOutcome : Type := Except HttpError LoginResponse

/-- The error a subscriber of `AuthService.login` can observe: the raw
gateway `HttpError`, or a JavaScript exception raised by the storage
writes inside the `tap` success continuation. -/
def LoginError : Type := Sum HttpError JsError

instance : DecidableEq LoginError := inferInstanceAs (DecidableEq (Sum HttpError JsError))

/-! ## Auth orchestrator (`auth.service.ts`) -/

/-- `AuthService.login(username, password)` as observed at resolution
time: given the storage state and the gateway outcome for the submitted
credentials, the `tap` continuation runs `saveToken(response.token)` then
`saveUser(response.username, response.nome)` on success only; on gateway
error nothing is written and the raw error propagates unchanged (the
service comment says explicitly that it does not handle the error).
Returns the storage afterwards and the outcome the subscriber sees. -/
def AuthService.login (s : LocalStorage) (gateway : GatewayOutcome) :
    LocalStorage × Except LoginError LoginResponse :=
  match gateway with
  | .error e => (s, .error (.inl e))
  | .ok response =>
    match saveToken s response.token with
    | .error je => (s, .error (.inr je))
    | .ok s1 =>
      match saveUser s1 response.username response.nome with
      | .error je => (s1, .error (.inr je))
      | .ok s2 => (s2, .ok response)

/-- `AuthService.logout()`: `removeToken(); removeUser();` (sequential;
an exception from the first call prevents the second). -/
def AuthService.logout (s : LocalStorage) : Except JsError LocalStorage :=
  match removeToken s with
  | .error e => .error e
  | .ok s1 => removeUser s1

/-- `AuthService.isAuthenticated()`: `!!getToken()`. -/
def AuthService.isAuthenticated (s : LocalStorage) : Except JsError Bool :=
  (getToken s).map jsTruthy

/-- `AuthService.getToken()`: delegates to the storage util `getToken`. -/
def AuthService.getToken (s : LocalStorage) : Except JsError (Option String) :=
  ProductFrontend.getToken s

/-- `AuthService.getCurrentUser()`: `return getUser();` — a plain
delegation, with no token check. -/
def AuthService.getCurrentUser (s : LocalStorage) :
    Except JsError (Option UserRecord) :=
  getUser s

/-! ## Outbound request decorator (`auth.interceptor.ts`) -/

/-- The headers of an outgoing request; only the `Authorization` header
is ever touched by this code. -/
structure HttpHeaders where
  authorization : Option String
  deriving Repr, DecidableEq

/-- `headers.set('Authorization', value)`: `HttpHeaders` is immutable, so
`set` returns a new header map. -/
def HttpHeaders.setAuthorization (h : HttpHeaders) (value : String) : HttpHeaders :=
  { h with authorization := some value }

/-- An outgoing `HttpRequest` (immutable in Angular; `req.clone` derives
a copy). -/
structure HttpRequest where
  url : String
  headers : HttpHeaders
  deriving Repr, DecidableEq

/-- `AuthInterceptor.intercept(req, next)`: reads the token; if it is
truthy, hands `next` a clone of `req` with
`Authorization: Bearer <token>` set; otherwise hands `next` the original
request unmodified.  Returns the request observed by the transport
layer; an exception from `getToken` propagates. -/
def AuthInterceptor.intercept (s : LocalStorage) (req : HttpRequest) :
    Except JsError HttpRequest :=
  (getToken s).map fun token =>
    match token with
    | some t =>
      if t != "" then
        { req with headers := req.headers.setAuthorization ("Bearer " ++ t) }
      else req
    | none => req

/-! ## Route guard (`auth.guard.ts`) -/

/-- The outcome of one guard evaluation: `allow` (the guard returned
`true`) or `redirect path returnUrl` (the guard called
`router.navigate(['/login'], \x7b queryParams: \x7b returnUrl \x7d \x7d)`
and returned `false`, cancelling the original navigation). -/
inductive GuardResult where
  | allow
  | redirect (path : String) (returnUrl : String)
  deriving Repr, DecidableEq

/-- `authGuard(route, state)`: if `authService.isAuthenticated()` then
allow; otherwise navigate to `/login` with `returnUrl` set to
`state.url` (the originally requested path) and block.  A pure function
of the current storage state, evaluated afresh on every navigation
attempt. -/
def authGuard (s : LocalStorage) (stateUrl : String) :
    Except JsError GuardResult :=
  (AuthService.isAuthenticated s).map fun authed =>
    if authed then .allow else .redirect "/login" stateUrl

/-! ## Login view (`login.component.ts`) -/

/-- What a submit handler does before any asynchronous resolution:
either it sets `errorMessage` to a validation message and returns
without calling the service, or it invokes `authService.login` with the
entered credentials. -/
inductive SubmitAction where
  | showValidationError (msg : String)
  | callLogin (username password : String)
  deriving Repr, DecidableEq

/-- `LoginComponent.onSubmit()` of the validated variant:
`if (!this.username || !this.password)` set
`errorMessage = 'Preencha todos os campos'` and return; otherwise call
`authService.login(username, password)`. -/
def LoginComponent.onSubmit (username password : String) : SubmitAction :=
  if username == "" || password == "" then
    .showValidationError "Preencha todos os campos"
  else
    .callLogin username password

/-- `onSubmit()` of the minimal login-component variant: calls
`authService.login(email, password)` unconditionally, with no
validation. -/
def LoginComponentMinimal.onSubmit (email password : String) : SubmitAction :=
  .callLogin email password

/-- The message the validated login component renders in its error
callback: `error.message || 'Erro ao fazer login'`. -/
def LoginComponent.errorDisplay (e : HttpError) : String :=
  if e.message == "" then "Erro ao fazer login" else e.message

/-! ## Serialization roundtrip lemmas -/

theorem dropLit_append (pre rest : List Char) :
    dropLit pre (pre ++ rest) = some rest := by
  induction pre with
  | nil => rfl
  | cons c cs ih => simp [dropLit, ih]

theorem parseJsonString_quote (rest : List Char) :
    parseJsonString ('"' :: rest) = some ([], rest) := by
  rw [parseJsonString.eq_def]
  simp

theorem parseJsonString_escaped (d : Char) (hd : d = '"' ∨ d = '\\')
    (ds : List Char) :
    parseJsonString ('\\' :: d :: ds) =
      match parseJsonString ds with
      | none => none
      | some (content, rest) => some (d :: content, rest) := by
  rcases hd with h | h <;> subst h <;> rw [parseJsonString.eq_def] <;> simp

theorem parseJsonString_other (c : Char) (cs : List Char)
    (h1 : c ≠ '"') (h2 : c ≠ '\\') :
    parseJsonString (c :: cs) =
      match parseJsonString cs with
      | none => none
      | some (content, rest) => some (c :: content, rest) := by
  rw [parseJsonString.eq_def]
  simp [h1, h2]

theorem parseJsonString_escape (cs rest : List Char) :
    parseJsonString (jsonEscapeChars cs ++ '"' :: rest) = some (cs, rest) := by
  induction cs with
  | nil => exact parseJsonString_quote rest
  | cons c cs ih =>
    by_cases hc : c = '"' ∨ c = '\\'
    · rw [jsonEscapeChars, if_pos hc]
      simp only [List.cons_append]
      rw [parseJsonString_escaped c hc, ih]
    · have h1 : ¬ c = '"' := fun h => hc (Or.inl h)
      have h2 : ¬ c = '\\' := fun h => hc (Or.inr h)
      rw [jsonEscapeChars, if_neg hc]
      simp only [List.cons_append]
      rw [parseJsonString_other c _ h1 h2, ih]

theorem parseUser_stringifyUser (u n : String) :
    parseUser (stringifyUser u n) = some ⟨u, n⟩ := by
  have hdata : (stringifyUser u n).data =
      userOpenChars ++ (jsonEscapeChars u.data ++ ('"' ::
        (userMidChars ++ (jsonEscapeChars n.data ++ ('"' :: userCloseChars))))) := by
    simp [stringifyUser, List.append_assoc]
  simp only [parseUser, hdata, dropLit_append, parseJsonString_escape]
  rfl

theorem stringifyUser_ne_empty (u n : String) : stringifyUser u n ≠ "" := by
  intro h
  have hdata : (stringifyUser u n).data = [] := by rw [h]
  rw [stringifyUser] at hdata
  have h2 := (List.append_eq_nil.mp hdata).2
  revert h2
  decide

/-! ## Claims -/

/-- C1: the claim that every failed login reaches the Login View as a
translated error with the fixed message
"authentication failed; verify credentials", with `AuthService` the
single translation point, is false: `AuthService.login` propagates the
gateway error unchanged (the counterexample error keeps its raw message
"Http failure 401"), and the component renders that raw message, not the
fixed one. -/
theorem C1_claim_counterexample :
    (AuthService.login ⟨false, none, none⟩
      (Except.error ⟨"Http failure 401"⟩)).2 =
        Except.error (Sum.inl ⟨"Http failure 401"⟩) ∧
    LoginComponent.errorDisplay ⟨"Http failure 401"⟩ = "Http failure 401" ∧
    "Http failure 401" ≠ "authentication failed; verify credentials" := by
  refine ⟨rfl, rfl, ?_⟩
  decide

/-- C1 (amended): on a failed login `AuthService.login` writes nothing
and propagates the raw gateway error unchanged — it performs no
translation; the Login View is where the error is handled, rendering
`error.message` when it is non-empty and the fixed fallback
"Erro ao fazer login" only when the message is empty. -/
theorem C1_amended (s : LocalStorage) (e : HttpError) :
    AuthService.login s (Except.error e) = (s, Except.error (Sum.inl e)) ∧
    (e.message ≠ "" → LoginComponent.errorDisplay e = e.message) ∧
    (e.message = "" → LoginComponent.errorDisplay e = "Erro ao fazer login") := by
  refine ⟨rfl, ?_, ?_⟩ <;> intro h <;>
    simp [LoginComponent.errorDisplay, h]

/-- C1 (witness): the amended statement applied to a fresh store and a
gateway error carrying the message "Http failure 401". -/
theorem C1_amended_witness :
    AuthService.login ⟨false, none, none⟩ (Except.error ⟨"Http failure 401"⟩) =
      (⟨false, none, none⟩, Except.error (Sum.inl ⟨"Http failure 401"⟩)) ∧
    LoginComponent.errorDisplay ⟨"Http failure 401"⟩ = "Http failure 401" :=
  ⟨(C1_amended ⟨false, none, none⟩ ⟨"Http failure 401"⟩).1,
   (C1_amended ⟨false, none, none⟩ ⟨"Http failure 401"⟩).2.1 (by decide)⟩

/-- C2: the claim that `getCurrentUser` returns absent whenever no token
is present is false: with a persisted profile and no token,
`getCurrentUser` returns the profile. -/
theorem C2_claim_counterexample :
    getToken ⟨false, none, some (stringifyUser "admin" "Administrador")⟩ =
      Except.ok none ∧
    AuthService.getCurrentUser
        ⟨false, none, some (stringifyUser "admin" "Administrador")⟩ =
      Except.ok (some ⟨"admin", "Administrador"⟩) ∧
    (Except.ok (some (⟨"admin", "Administrador"⟩ : UserRecord)) :
        Except JsError (Option UserRecord)) ≠ Except.ok none := by
  refine ⟨rfl, by decide, by decide⟩

/-- C2 (amended): `getCurrentUser` performs no token check at all — it
returns the persisted profile whenever one is stored (here any canonical
record), for every token cell including an absent one, and its result
never depends on the token cell. -/
theorem C2_amended (tok tok2 : Option String) (u n : String) :
    AuthService.getCurrentUser ⟨false, tok, some (stringifyUser u n)⟩ =
      Except.ok (some ⟨u, n⟩) ∧
    (∀ (d : Bool) (ud : Option String),
      AuthService.getCurrentUser ⟨d, tok, ud⟩ =
        AuthService.getCurrentUser ⟨d, tok2, ud⟩) := by
  constructor
  · simp [AuthService.getCurrentUser, getUser, localStorageGetItem,
      stringifyUser_ne_empty, parseUser_stringifyUser]
  · intro d ud
    rfl

/-- C3: the claim that the transport layer sees an `Authorization`
header if and only if `getToken()` is non-absent is false: with the
empty string stored as the token, `getToken()` is non-absent yet the
interceptor passes the request through with no header. -/
theorem C3_claim_counterexample :
    getToken ⟨false, some "", none⟩ = Except.ok (some "") ∧
    AuthInterceptor.intercept ⟨false, some "", none⟩ ⟨"/products", ⟨none⟩⟩ =
      Except.ok ⟨"/products", ⟨none⟩⟩ ∧
    (⟨"/products", ⟨none⟩⟩ : HttpRequest).headers.authorization = none := by
  exact ⟨rfl, rfl, rfl⟩

/-- C3 (amended): the transport layer sees an `Authorization` header of
the form `Bearer <token>` if and only if a truthy (present and
non-empty) token is in the store at decoration time; otherwise the very
request passed in goes through.  In this pure embedding the request is a
value, so the source invariant that the original request object is never
mutated (`HttpRequest` is immutable; the decorated request is a
`req.clone` derived copy) is reflected by the result being either `req`
itself or a newly built record. -/
theorem C3_amended (s : LocalStorage) (req : HttpRequest)
    (hd : s.disabled = false) :
    ∃ r, AuthInterceptor.intercept s req = Except.ok r ∧
      r.url = req.url ∧
      ((∃ t, s.auth_token = some t ∧ t ≠ "" ∧
          r = { req with headers :=
            { req.headers with authorization := some ("Bearer " ++ t) } }) ∨
       ((s.auth_token = none ∨ s.auth_token = some "") ∧ r = req)) := by
  obtain ⟨d, tok, ud⟩ := s
  subst hd
  match tok with
  | none =>
    exact ⟨req, rfl, rfl, Or.inr ⟨Or.inl rfl, rfl⟩⟩
  | some t =>
    by_cases ht : t = ""
    · subst ht
      exact ⟨req, rfl, rfl, Or.inr ⟨Or.inr rfl, rfl⟩⟩
    · refine ⟨{ req with headers :=
        { req.headers with authorization := some ("Bearer " ++ t) } }, ?_, rfl,
        Or.inl ⟨t, rfl, ht, rfl⟩⟩
      simp [AuthInterceptor.intercept, getToken, localStorageGetItem,
        HttpHeaders.setAuthorization, Except.map, ht]

/-- C3 (witness): the amended statement applied to a store holding the
token "abc" and a bare request for "/products". -/
theorem C3_amended_witness :
    ∃ r, AuthInterceptor.intercept ⟨false, some "abc", none⟩
        ⟨"/products", ⟨none⟩⟩ = Except.ok r ∧
      r.url = "/products" ∧
      ((∃ t, (some "abc" : Option String) = some t ∧ t ≠ "" ∧
          r = ⟨"/products", ⟨some ("Bearer " ++ t)⟩⟩) ∨
       (((some "abc" : Option String) = none ∨
          (some "abc" : Option String) = some "") ∧
         r = ⟨"/products", ⟨none⟩⟩)) :=
  C3_amended ⟨false, some "abc", none⟩ ⟨"/products", ⟨none⟩⟩ rfl

/-- C4: on every navigation attempt to a protected route the guard
allows exactly when `isAuthenticated()` is true, and otherwise cancels
the navigation and redirects to `/login` with `returnUrl` equal to the
originally requested path; the decision is recomputed from the current
store on every attempt (any store with the same `isAuthenticated` value
yields the same decision — nothing else is consulted, no caching). -/
theorem C4_guard (s : LocalStorage) (url : String) :
    (AuthService.isAuthenticated s = Except.ok true →
      authGuard s url = Except.ok GuardResult.allow) ∧
    (AuthService.isAuthenticated s = Except.ok false →
      authGuard s url = Except.ok (GuardResult.redirect "/login" url)) ∧
    (∀ s2, AuthService.isAuthenticated s2 = AuthService.isAuthenticated s →
      authGuard s2 url = authGuard s url) := by
  refine ⟨fun h => ?_, fun h => ?_, fun s2 h => ?_⟩ <;>
    simp [authGuard, h, Except.map]

/-- C4 (witness): on the empty store (no token) a navigation attempt to
`/dashboard` is cancelled and redirected to `/login?returnUrl=/dashboard`. -/
theorem C4_guard_witness :
    authGuard ⟨false, none, none⟩ "/dashboard" =
      Except.ok (GuardResult.redirect "/login" "/dashboard") :=
  (C4_guard ⟨false, none, none⟩ "/dashboard").2.1 (by decide)

/-- C5: the claim that after every successful login `isAuthenticated()`
is true fails when the endpoint response carries the empty-string token:
the login resolves successfully and persists the response, yet
`isAuthenticated()` is false (`!!""` is false). -/
theorem C5_claim_counterexample :
    (AuthService.login ⟨false, none, none⟩
        (Except.ok ⟨"admin", "Administrador", ""⟩)).2 =
      Except.ok ⟨"admin", "Administrador", ""⟩ ∧
    AuthService.isAuthenticated
        (AuthService.login ⟨false, none, none⟩
          (Except.ok ⟨"admin", "Administrador", ""⟩)).1 =
      Except.ok false := by
  exact ⟨rfl, rfl⟩

/-- C5 (amended): after a successful `login` whose endpoint response is
`\x7b username, nome, token \x7d` with a non-empty token,
`isAuthenticated()` is true and `getCurrentUser()` returns the record
with exactly that username and display name. -/
theorem C5_amended (s : LocalStorage) (u n t : String)
    (hd : s.disabled = false) (ht : t ≠ "") :
    (AuthService.login s (Except.ok ⟨u, n, t⟩)).2 = Except.ok ⟨u, n, t⟩ ∧
    AuthService.isAuthenticated
        (AuthService.login s (Except.ok ⟨u, n, t⟩)).1 = Except.ok true ∧
    AuthService.getCurrentUser
        (AuthService.login s (Except.ok ⟨u, n, t⟩)).1 =
      Except.ok (some ⟨u, n⟩) := by
  obtain ⟨d, tok, ud⟩ := s
  subst hd
  refine ⟨rfl, ?_, ?_⟩ <;>
    simp [AuthService.login, saveToken, saveUser, localStorageSetItem,
      AuthService.isAuthenticated, getToken, localStorageGetItem, jsTruthy,
      AuthService.getCurrentUser, getUser, stringifyUser_ne_empty,
      parseUser_stringifyUser, Except.map, ht]

/-- C5 (witness): the amended statement at the end-to-end scenario of
the specification: response
`\x7b "admin", "Administrador", "abc.def.ghi" \x7d` on a fresh store. -/
theorem C5_amended_witness :
    (AuthService.login ⟨false, none, none⟩
        (Except.ok ⟨"admin", "Administrador", "abc.def.ghi"⟩)).2 =
      Except.ok ⟨"admin", "Administrador", "abc.def.ghi"⟩ ∧
    AuthService.isAuthenticated
        (AuthService.login ⟨false, none, none⟩
          (Except.ok ⟨"admin", "Administrador", "abc.def.ghi"⟩)).1 =
      Except.ok true ∧
    AuthService.getCurrentUser
        (AuthService.login ⟨false, none, none⟩
          (Except.ok ⟨"admin", "Administrador", "abc.def.ghi"⟩)).1 =
      Except.ok (some ⟨"admin", "Administrador"⟩) :=
  C5_amended ⟨false, none, none⟩ "admin" "Administrador" "abc.def.ghi" rfl
    (by decide)

/-- C6: `login` writes to the store atomically with respect to failure:
whenever the outcome observed by the subscriber is an error (gateway
failure, or even a storage exception raised inside the success
continuation) the store afterwards is exactly the store from before the
attempt; whenever the outcome is a success, both the token cell and the
profile cell hold the response data. -/
theorem C6_login_atomic (s : LocalStorage) (gateway : GatewayOutcome) :
    (∀ err, (AuthService.login s gateway).2 = Except.error err →
      (AuthService.login s gateway).1 = s) ∧
    (∀ resp, (AuthService.login s gateway).2 = Except.ok resp →
      (AuthService.login s gateway).1 =
        { s with auth_token := some resp.token,
                 user_data := some (stringifyUser resp.username resp.nome) }) := by
  obtain ⟨d, tok, ud⟩ := s
  match gateway with
  | .error e => exact ⟨fun _ _ => rfl, fun resp h => by cases h⟩
  | .ok resp =>
    match d with
    | true => exact ⟨fun _ _ => rfl, fun r h => by cases h⟩
    | false =>
      refine ⟨fun err h => ?_, fun r h => ?_⟩ <;>
        simp [AuthService.login, saveToken, saveUser,
          localStorageSetItem] at h ⊢
      cases h
      exact ⟨rfl, rfl⟩

/-- C6 (witness): a failed login attempt on a store already holding a
session leaves that store byte-for-byte as it was. -/
theorem C6_login_atomic_witness :
    (AuthService.login ⟨false, some "old.token", some "old-user"⟩
        (Except.error ⟨"Http failure 401"⟩)).1 =
      ⟨false, some "old.token", some "old-user"⟩ :=
  (C6_login_atomic ⟨false, some "old.token", some "old-user"⟩
      (Except.error ⟨"Http failure 401"⟩)).1
    (Sum.inl ⟨"Http failure 401"⟩) (by decide)

/-- C7: the claim that store operations never throw across their
boundary is false: the storage utilities contain no error handling, so
with storage disabled `getToken` raises instead of returning absent and
`saveToken` raises instead of failing silently, and with unusable
(non-JSON) persisted content `getUser` raises a syntax error instead of
returning absent. -/
theorem C7_claim_counterexample :
    getToken ⟨true, none, none⟩ = Except.error JsError.storageDisabled ∧
    saveToken ⟨true, none, none⟩ "t" = Except.error JsError.storageDisabled ∧
    getUser ⟨false, none, some "not-json"⟩ = Except.error JsError.invalidJson ∧
    (Except.error JsError.invalidJson :
        Except JsError (Option UserRecord)) ≠ Except.ok none := by
  refine ⟨rfl, rfl, by decide, by decide⟩

/-- C7 (amended): the store operations perform no exception handling at
all — when the underlying storage is disabled, every one of the six
operations propagates the storage exception to its caller rather than
degrading to absent/silence (and `getUser` likewise propagates a JSON
syntax error on unusable content, as the counterexample shows). -/
theorem C7_amended (s : LocalStorage) (t u n : String)
    (hd : s.disabled = true) :
    saveToken s t = Except.error JsError.storageDisabled ∧
    getToken s = Except.error JsError.storageDisabled ∧
    removeToken s = Except.error JsError.storageDisabled ∧
    saveUser s u n = Except.error JsError.storageDisabled ∧
    getUser s = Except.error JsError.storageDisabled ∧
    removeUser s = Except.error JsError.storageDisabled := by
  refine ⟨?_, ?_, ?_, ?_, ?_, ?_⟩ <;>
    simp [saveToken, getToken, removeToken, saveUser, getUser, removeUser,
      localStorageSetItem, localStorageGetItem, localStorageRemoveItem, hd]

/-- C7 (witness): the amended statement on a disabled storage. -/
theorem C7_amended_witness :
    saveToken ⟨true, none, none⟩ "t" = Except.error JsError.storageDisabled ∧
    getToken ⟨true, none, none⟩ = Except.error JsError.storageDisabled ∧
    removeToken ⟨true, none, none⟩ = Except.error JsError.storageDisabled ∧
    saveUser ⟨true, none, none⟩ "u" "n" =
      Except.error JsError.storageDisabled ∧
    getUser ⟨true, none, none⟩ = Except.error JsError.storageDisabled ∧
    removeUser ⟨true, none, none⟩ = Except.error JsError.storageDisabled :=
  C7_amended ⟨true, none, none⟩ "t" "u" "n" rfl

/-- C8: the claim that submitting with an empty identifier or secret
never invokes `login` on the orchestrator is false for the minimal
login-component variant, whose `onSubmit` calls `authService.login`
unconditionally — here with both fields empty — instead of stopping at
validation. -/
theorem C8_claim_counterexample :
    LoginComponentMinimal.onSubmit "" "" = SubmitAction.callLogin "" "" ∧
    SubmitAction.callLogin "" "" ≠
      SubmitAction.showValidationError "Preencha todos os campos" := by
  exact ⟨rfl, by decide⟩

/-- C8 (amended): the validated login-component variant stops at
client-side validation on every credential pair with an empty identifier
or empty secret: it shows the fill-all-fields message
"Preencha todos os campos" and never invokes `login`; the minimal
variant, however, invokes `login` unconditionally. -/
theorem C8_amended (u p : String) (h : u = "" ∨ p = "") :
    LoginComponent.onSubmit u p =
      SubmitAction.showValidationError "Preencha todos os campos" := by
  rcases h with h | h <;> subst h <;>
    simp [LoginComponent.onSubmit]

/-- C8 (witness): the amended statement on an empty identifier with a
non-empty secret. -/
theorem C8_amended_witness :
    LoginComponent.onSubmit "" "123456" =
      SubmitAction.showValidationError "Preencha todos os campos" :=
  C8_amended "" "123456" (Or.inl rfl)

/-- C9: after `logout()` on any store state (with working storage),
`isAuthenticated()` is false and `getCurrentUser()` is absent; and
`logout` is idempotent — running it again returns the very same (empty)
store state. -/
theorem C9_logout (s : LocalStorage) (hd : s.disabled = false) :
    ∃ s1, AuthService.logout s = Except.ok s1 ∧
      AuthService.isAuthenticated s1 = Except.ok false ∧
      AuthService.getCurrentUser s1 = Except.ok none ∧
      AuthService.logout s1 = Except.ok s1 := by
  obtain ⟨d, tok, ud⟩ := s
  subst hd
  exact ⟨⟨false, none, none⟩, rfl, rfl, rfl, rfl⟩

/-- C9 (witness): logging out of a store holding both a token and a
profile empties it, leaves the session inactive, and a second `logout`
is a no-op. -/
theorem C9_logout_witness :
    ∃ s1, AuthService.logout ⟨false, some "abc.def.ghi",
        some "\x7b\"username\":\"admin\",\"nome\":\"Administrador\"\x7d"⟩ =
      Except.ok s1 ∧
      AuthService.isAuthenticated s1 = Except.ok false ∧
      AuthService.getCurrentUser s1 = Except.ok none ∧
      AuthService.logout s1 = Except.ok s1 :=
  C9_logout ⟨false, some "abc.def.ghi",
    some "\x7b\"username\":\"admin\",\"nome\":\"Administrador\"\x7d"⟩ rfl

/-- C10: storing the empty string as the token (`saveToken("")`) leaves
a present token entry in the store (`getToken()` returns it), yet
`isAuthenticated()` is false and the request decorator attaches no
`Authorization` header: token presence and authentication status diverge
on the empty-string token. -/
theorem C10_empty_token (s : LocalStorage) (req : HttpRequest)
    (hd : s.disabled = false) :
    ∃ s1, saveToken s "" = Except.ok s1 ∧
      getToken s1 = Except.ok (some "") ∧
      AuthService.isAuthenticated s1 = Except.ok false ∧
      AuthInterceptor.intercept s1 req = Except.ok req := by
  obtain ⟨d, tok, ud⟩ := s
  subst hd
  exact ⟨⟨false, some "", ud⟩, rfl, rfl, rfl, rfl⟩

/-- C10 (witness): the divergence on a fresh store and a bare request
for "/products". -/
theorem C10_empty_token_witness :
    ∃ s1, saveToken ⟨false, none, none⟩ "" = Except.ok s1 ∧
      getToken s1 = Except.ok (some "") ∧
      AuthService.isAuthenticated s1 = Except.ok false ∧
      AuthInterceptor.intercept s1 ⟨"/products", ⟨none⟩⟩ =
        Except.ok ⟨"/products", ⟨none⟩⟩ :=
  C10_empty_token ⟨false, none, none⟩ ⟨"/products", ⟨none⟩⟩ rfl

end ProductFrontend
